import Mathlib

/-!
Shallow embedding of mikeio1d's `Res1D` facade (src/mikeio1d/res1d.py).

The repository code under `src/` is the single module `res1d.py`: a facade
over an external proprietary .NET engine and over sibling modules of the
package (`result_reader_writer`, `result_network`, `result_extractor`,
`dotnet`, `query`) that are not present under `src/`.  The operations of the
external engine and of the absent sibling modules are modelled as abstract
function fields of `Engine`; where a definition reflects an absent module
rather than `res1d.py` itself, its doc comment says so and starts with
"Modelled from the spec".  The facade itself (`Res1D.read`, `read_all`,
`clear_queries`, `get_reach_value`, `modify`, `save`, `extract`, `to_csv`,
`to_dfs0`, `to_txt`, `_get_actual_queries` and the constructor) is translated
line by line from `res1d.py`, with Python object mutation rendered as explicit
state passing on `Res1DState` and exceptions rendered as `Except`.
-/

namespace Mikeio1d

/-- A query value object: a quantity id, a location id and an optional
chainage.  The `query` module is outside src/; the facade treats queries as
opaque values, so only this shape matters. -/
structure Query where
  quantity : String
  name : String
  chainage : Option Int
deriving DecidableEq, Repr

/-- The argument accepted by `read` and `extract`: either a single query
object or a Python list of queries.  `_get_actual_queries` distinguishes the
two with `isinstance(queries, list)`. -/
inductive QueryArg
  | single (q : Query)
  | list (qs : List Query)
deriving DecidableEq, Repr

/-- The tabular result produced by the external reader.  The facade never
looks inside it, so it is opaque data. -/
structure DataFrame where
  raw : Nat
deriving DecidableEq, Repr

/-- A data entry produced by `convert_queries_to_data_entries`; opaque to the
facade. -/
structure DataEntry where
  raw : Nat
deriving DecidableEq, Repr

/-- Python exception values that can cross the facade boundary: the facade's
own `NotImplementedError`, a `ValueError` from the extractor creator, and
arbitrary exceptions of the external engine. -/
inductive PyException
  | notImplementedError (msg : String)
  | valueError (msg : String)
  | engineError (code : Nat) (msg : String)
deriving DecidableEq, Repr

/-- The three output serializer kinds of the extractor module. -/
inductive OutputFileType
  | csv
  | dfs0
  | txt
deriving DecidableEq, Repr

/-- The network element kinds that the constructor's filter lists address. -/
inductive ItemKind
  | node
  | reach
  | catchment
deriving DecidableEq, Repr

/-- An element of the loaded result file, owned by the external engine: a
kind, an id (the string the filter lists match against) and opaque data. -/
structure Item where
  kind : ItemKind
  id : String
  payload : Nat
deriving DecidableEq, Repr

/-- The in-memory ResultData object of the external engine, as far as the
facade touches it: the connection file path (`data.Connection.FilePath.Path`,
assigned by `save`) and an opaque payload. -/
structure ResultData where
  connectionFilePath : String
  payload : Nat
deriving DecidableEq, Repr

/-- Observable effects on the world outside the process: a result file saved
by `ResultData.Save`, or a table exported by an extractor. -/
inductive Effect
  | saved (path : String) (d : ResultData)
  | exported (t : OutputFileType) (path : String) (entries : List DataEntry) (skip : Nat)
deriving DecidableEq, Repr

/-- The facade-visible part of `ResultNetwork` (module `result_network`, not
under src/): the active query list and the parallel list of query ids.
`res1d.py` reads and clears exactly these two lists. -/
structure ResultNetwork where
  queries : List Query
  queries_ids : List String
deriving DecidableEq, Repr

/-- Modelled from the spec: the result reader (module `result_reader_writer`,
not under src/) keeps the node/reach/catchment filter lists handed to the
constructor and knows whether the loaded file is a long-term-statistics
file (`is_lts_result_file`). -/
structure ResultReaderSettings where
  reaches : List String
  nodes : List String
  catchments : List String
  is_lts_result_file : Bool
deriving DecidableEq, Repr

/-- The state of a `Res1D` object: the in-memory data object, the reader
settings, the result network (active queries), the
`clear_queries_after_reading` flag, and the trace of world effects performed
so far. -/
structure Res1DState where
  data : ResultData
  result_reader : ResultReaderSettings
  result_network : ResultNetwork
  clear_queries_after_reading : Bool
  effects : List Effect
deriving DecidableEq, Repr

/-- The external .NET engine together with the absent sibling modules, as
abstract operations.  `readData` and `readAllData` model the
table-producing part of `result_reader.read` and `result_reader.read_all`
acting on the loaded (filter-restricted) items.  The reader is constructed
with a back-reference to the facade object (res1d.py lines 84-85), and its
other documented behavior — clearing the active queries after
reading/processing them when `clear_queries_after_reading` is set (res1d.py
lines 57-58) — is modelled separately by `Res1D.readOp` below.
`toDotnetDatetime` models `dotnet.to_dotnet_datetime`; `getReachValueQ`
models the .NET `ResultDataQuery.GetReachValue`; `convertQueriesToDataEntries`
models `ResultNetwork.convert_queries_to_data_entries`; `runExport` models
the selected extractor's `export`; `writeFrame` models
`ResultWriter.modify`, which per the spec copies values from a tabular
structure back into the engine's in-memory result object; `saveData` models
the .NET `ResultData.Save`. -/
structure Engine where
  fileItems : List Item
  readData : List Item → List Query → Except PyException DataFrame
  readAllData : List Item → Except PyException DataFrame
  toDotnetDatetime : Nat → Nat
  getReachValueQ : String → Int → String → Nat → Except PyException Int
  convertQueriesToDataEntries : List Query → List DataEntry
  runExport : OutputFileType → String → List DataEntry → Nat → Except PyException Unit
  writeFrame : DataFrame → ResultData → ResultData
  saveData : ResultData → Except PyException Unit

/-- Index of the last occurrence of `c` in `l`, or -1 when absent; mirrors
Python's `str.rfind`. -/
def rfind (l : List Char) (c : Char) : Int :=
  (List.range l.length).foldl (fun acc i => if l.get? i = some c then (i : Int) else acc) (-1)

/-- Python's `os.path.splitext` (ntpath flavour: separators `\` and `/`):
split at the last dot of the final path component, unless every character of
that component before the dot is itself a dot (leading dots do not start an
extension). -/
def splitext (p : String) : String × String :=
  let l := p.data
  let sepIndex := max (rfind l '\\') (rfind l '/')
  let dotIndex := rfind l '.'
  let hasRealName := (List.range l.length).any
    (fun i => decide (sepIndex < (i : Int)) && decide ((i : Int) < dotIndex) && (l.get? i != some '.'))
  if decide (sepIndex < dotIndex) && hasRealName then
    ((l.take dotIndex.toNat).asString, (l.drop dotIndex.toNat).asString)
  else (p, "")

/-- Modelled from the spec: the extractor module's output-file-type constant
for csv; res1d.py's docstring says the explicit ext "Can be 'csv', 'dfs0',
'txt'". -/
def ExtractorOutputFileType.CSV : String := "csv"

/-- Modelled from the spec: the extractor module's output-file-type constant
for dfs0. -/
def ExtractorOutputFileType.DFS0 : String := "dfs0"

/-- Modelled from the spec: the extractor module's output-file-type constant
for txt. -/
def ExtractorOutputFileType.TXT : String := "txt"

/-- Modelled from the spec: `ExtractorCreator.create` (module
`result_extractor`, not under src/) chooses the output serializer by file
extension, accepting the splitext form (".csv") and the explicit constant
form ("csv"); any other extension has no serializer. -/
def extractorTypeOfExt (ext : String) : Option OutputFileType :=
  if ext = ".csv" ∨ ext = "csv" then some OutputFileType.csv
  else if ext = ".dfs0" ∨ ext = "dfs0" then some OutputFileType.dfs0
  else if ext = ".txt" ∨ ext = "txt" then some OutputFileType.txt
  else none

/-- Modelled from the spec: the result reader stores a missing (None) filter
list as the empty list, so `None` and `[]` coincide in the stored settings. -/
def normalizeFilter (filt : Option (List String)) : List String :=
  filt.getD []

/-- Modelled from the spec: the reader restricts the loaded file to the items
selected by the filter lists; an empty stored list means no filtering for
that kind. -/
def applyFilters (s : ResultReaderSettings) (items : List Item) : List Item :=
  items.filter (fun it =>
    let f := match it.kind with
      | ItemKind.node => s.nodes
      | ItemKind.reach => s.reaches
      | ItemKind.catchment => s.catchments
    f.isEmpty || f.contains it.id)

/-- The items of the loaded file visible through the reader, after the
constructor's filters. -/
def loadedItems (e : Engine) (st : Res1DState) : List Item :=
  applyFilters st.result_reader e.fileItems

/-- `Res1D.__init__` (res1d.py lines 72-97): forwards the filter lists to the
reader, creates a fresh `ResultNetwork` (no active queries) and a writer, and
stores the `clear_queries_after_reading` flag. -/
def Res1D.init (data0 : ResultData) (reaches nodes catchments : Option (List String))
    (clear_queries_after_reading : Bool) (is_lts : Bool) : Res1DState :=
  { data := data0
  , result_reader :=
      { reaches := normalizeFilter reaches
      , nodes := normalizeFilter nodes
      , catchments := normalizeFilter catchments
      , is_lts_result_file := is_lts }
  , result_network := { queries := [], queries_ids := [] }
  , clear_queries_after_reading := clear_queries_after_reading
  , effects := [] }

/-- `Res1D._get_actual_queries` (res1d.py lines 118-122): `self._queries`
(the network's active query list) when the argument is None; the argument
itself when it is a list; otherwise the one-element list `[queries]`. -/
def Res1D.get_actual_queries (st : Res1DState) (queries : Option QueryArg) : List Query :=
  match queries with
  | none => st.result_network.queries
  | some (QueryArg.list qs) => qs
  | some (QueryArg.single q) => [q]

/-- `Res1D.read_all` (res1d.py lines 161-163): delegate to the reader.  The
facade's own code mutates nothing, so this returns the state unchanged; the
reader's configured clearing of active queries is modelled by
`Res1D.readOp`. -/
def Res1D.read_all (e : Engine) (st : Res1DState) :
    Except PyException (DataFrame × Res1DState) :=
  (e.readAllData (loadedItems e st)).map (fun df => (df, st))

/-- `Res1D.read` (res1d.py lines 126-159): when `queries` is None and the
active query list is empty, return `read_all()`; otherwise normalize the
argument with `_get_actual_queries` and return the reader's result
unchanged. -/
def Res1D.read (e : Engine) (st : Res1DState) (queries : Option QueryArg) :
    Except PyException (DataFrame × Res1DState) :=
  if queries.isNone && st.result_network.queries.isEmpty then
    Res1D.read_all e st
  else
    (e.readData (loadedItems e st) (Res1D.get_actual_queries st queries)).map
      (fun df => (df, st))

/-- `Res1D.clear_queries` (res1d.py lines 165-168): clear both
`result_network.queries` and `result_network.queries_ids`. -/
def Res1D.clear_queries (st : Res1DState) : Res1DState :=
  { st with result_network := { queries := [], queries_ids := [] } }

/-- Modelled from the spec: the clearing-after-read behavior of the result
reader (module `result_reader_writer`, absent from src/).  The reader holds a
back-reference to the facade object (res1d.py lines 84-85) and, per the
`clear_queries_after_reading` docstring (res1d.py lines 57-58) and spec
section 8 ("Clearing queries after a read, when configured to do so, must
leave the active query list empty for the subsequent call"), clears the
active queries after reading/processing them when the flag is set.
`Res1D.readOp` is the complete read operation: the facade's `Res1D.read`
together with that clearing. -/
def Res1D.readOp (e : Engine) (st : Res1DState) (queries : Option QueryArg) :
    Except PyException (DataFrame × Res1DState) :=
  match Res1D.read e st queries with
  | Except.error ex => Except.error ex
  | Except.ok (df, st2) =>
      Except.ok (df,
        if st2.clear_queries_after_reading then Res1D.clear_queries st2 else st2)

/-- A time argument to `get_reach_value`: already a .NET `DateTime` (ticks)
or a Python datetime that still needs conversion. -/
inductive TimeArg
  | dotnet (ticks : Nat)
  | python (t : Nat)
deriving DecidableEq, Repr

/-- The external calls `get_reach_value` makes, in order. -/
inductive QueryCall
  | toDotnetDatetime (t : Nat)
  | getReachValue (reach : String) (chainage : Int) (quantity : String) (ticks : Nat)
deriving DecidableEq, Repr

/-- `Res1D.get_reach_value` (res1d.py lines 255-260): reject LTS files with
`NotImplementedError`; otherwise convert the time if it is not already a .NET
`DateTime` and call `query.GetReachValue`.  The second component records the
external calls actually made. -/
def Res1D.get_reach_value (e : Engine) (st : Res1DState) (reach_name : String)
    (chainage : Int) (quantity : String) (time : TimeArg) :
    Except PyException Int × List QueryCall :=
  if st.result_reader.is_lts_result_file then
    (Except.error (PyException.notImplementedError
      "The method is not implemented for LTS event statistics."), [])
  else
    match time with
    | TimeArg.dotnet ticks =>
        (e.getReachValueQ reach_name chainage quantity ticks,
         [QueryCall.getReachValue reach_name chainage quantity ticks])
    | TimeArg.python t =>
        (e.getReachValueQ reach_name chainage quantity (e.toDotnetDatetime t),
         [QueryCall.toDotnetDatetime t,
          QueryCall.getReachValue reach_name chainage quantity (e.toDotnetDatetime t)])

/-- `Res1D.save` (res1d.py lines 288-298): assign
`data.Connection.FilePath.Path = file_path` and call `data.Save()`. -/
def Res1D.save (e : Engine) (st : Res1DState) (file_path : String) :
    Except PyException Res1DState :=
  match e.saveData { st.data with connectionFilePath := file_path } with
  | Except.error ex => Except.error ex
  | Except.ok _ =>
      Except.ok { st with
        data := { st.data with connectionFilePath := file_path }
      , effects := st.effects ++
          [Effect.saved file_path { st.data with connectionFilePath := file_path }] }

/-- `Res1D.modify` (res1d.py lines 273-286): `result_writer.modify(df)` then,
only when a file path was given, `save(file_path)`. -/
def Res1D.modify (e : Engine) (st : Res1DState) (data_frame : DataFrame)
    (file_path : Option String) : Except PyException Res1DState :=
  match file_path with
  | none => Except.ok { st with data := e.writeFrame data_frame st.data }
  | some p => Res1D.save e { st with data := e.writeFrame data_frame st.data } p

/-- Line 321 of res1d.py:
`ext = os.path.splitext(file_path)[-1] if ext is None else ext`. -/
def Res1D.determineExt (file_path : String) (ext : Option String) : String :=
  match ext with
  | none => (splitext file_path).snd
  | some x => x

/-- `Res1D.extract` (res1d.py lines 300-330): determine the extension, get
the actual queries, convert them to data entries, create the extractor for
the extension, export, and finally clear the active queries when
`clear_queries_after_reading` is set. -/
def Res1D.extract (e : Engine) (st : Res1DState) (file_path : String)
    (queries : Option QueryArg) (time_step_skipping_number : Nat)
    (ext : Option String) : Except PyException Res1DState :=
  match extractorTypeOfExt (Res1D.determineExt file_path ext) with
  | none => Except.error (PyException.valueError "Extractor does not exist for given file extension.")
  | some t =>
    match e.runExport t file_path
        (e.convertQueriesToDataEntries (Res1D.get_actual_queries st queries))
        time_step_skipping_number with
    | Except.error ex => Except.error ex
    | Except.ok _ =>
        if st.clear_queries_after_reading then
          Except.ok (Res1D.clear_queries { st with effects := st.effects ++
            [Effect.exported t file_path
              (e.convertQueriesToDataEntries (Res1D.get_actual_queries st queries))
              time_step_skipping_number] })
        else
          Except.ok { st with effects := st.effects ++
            [Effect.exported t file_path
              (e.convertQueriesToDataEntries (Res1D.get_actual_queries st queries))
              time_step_skipping_number] }

/-- `Res1D.to_csv` (res1d.py lines 332-334): extract with the explicit csv
output type. -/
def Res1D.to_csv (e : Engine) (st : Res1DState) (file_path : String)
    (queries : Option QueryArg) (time_step_skipping_number : Nat) :
    Except PyException Res1DState :=
  Res1D.extract e st file_path queries time_step_skipping_number
    (some ExtractorOutputFileType.CSV)

/-- `Res1D.to_dfs0` (res1d.py lines 336-338): extract with the explicit dfs0
output type. -/
def Res1D.to_dfs0 (e : Engine) (st : Res1DState) (file_path : String)
    (queries : Option QueryArg) (time_step_skipping_number : Nat) :
    Except PyException Res1DState :=
  Res1D.extract e st file_path queries time_step_skipping_number
    (some ExtractorOutputFileType.DFS0)

/-- `Res1D.to_txt` (res1d.py lines 340-342): extract with the explicit txt
output type. -/
def Res1D.to_txt (e : Engine) (st : Res1DState) (file_path : String)
    (queries : Option QueryArg) (time_step_skipping_number : Nat) :
    Except PyException Res1DState :=
  Res1D.extract e st file_path queries time_step_skipping_number
    (some ExtractorOutputFileType.TXT)

/-- A concrete query used by the witnesses below. -/
def qA : Query := { quantity := "WaterLevel", name := "node1", chainage := none }

/-- A concrete in-memory data object used by the witnesses below. -/
def dataA : ResultData := { connectionFilePath := "base.res1d", payload := 7 }

/-- A concrete engine whose operations all succeed. -/
def engineA : Engine :=
  { fileItems := [{ kind := ItemKind.node, id := "node1", payload := 1 }]
  , readData := fun _ qs => Except.ok { raw := qs.length }
  , readAllData := fun items => Except.ok { raw := 100 + items.length }
  , toDotnetDatetime := fun t => t + 621355968000000000
  , getReachValueQ := fun _ _ _ _ => Except.ok 42
  , convertQueriesToDataEntries := fun qs => qs.map (fun _ => { raw := 5 })
  , runExport := fun _ _ _ _ => Except.ok ()
  , writeFrame := fun df d => { d with payload := d.payload + df.raw }
  , saveData := fun _ => Except.ok () }

/-- A concrete facade state with one active query and
`clear_queries_after_reading = true`. -/
def stA : Res1DState :=
  { data := dataA
  , result_reader := { reaches := [], nodes := [], catchments := [], is_lts_result_file := false }
  , result_network := { queries := [qA], queries_ids := ["WaterLevel:node1"] }
  , clear_queries_after_reading := true
  , effects := [] }

/-- `stA` with an empty active query list. -/
def stEmpty : Res1DState :=
  { stA with result_network := { queries := [], queries_ids := [] } }

/-- `stA` with the loaded file flagged as a long-term-statistics file. -/
def stLts : Res1DState :=
  { stA with result_reader := { stA.result_reader with is_lts_result_file := true } }

/-- The state produced by `extract engineA stA "out.csv" none 1 none`. -/
def stCsv : Res1DState :=
  { data := dataA
  , result_reader := { reaches := [], nodes := [], catchments := [], is_lts_result_file := false }
  , result_network := { queries := [], queries_ids := [] }
  , clear_queries_after_reading := true
  , effects := [Effect.exported OutputFileType.csv "out.csv" [{ raw := 5 }] 1] }

/-- A concrete exception of the external engine. -/
def exB : PyException := PyException.engineError 2 "File not found."

/-- A concrete engine all of whose fallible operations fail with `exB`. -/
def engineErr : Engine :=
  { engineA with
      readData := fun _ _ => Except.error exB
    , readAllData := fun _ => Except.error exB
    , runExport := fun _ _ _ _ => Except.error exB
    , saveData := fun _ => Except.error exB }

/-- Helper: a successful `extract` appends exactly one export effect, carrying
the serializer selected for the determined extension; clearing the queries
afterwards does not touch the effect trace. -/
theorem extract_ok_effects (e : Engine) (st : Res1DState) (fp : String)
    (q : Option QueryArg) (n : Nat) (ext : Option String) (t : OutputFileType)
    (st' : Res1DState)
    (hE : extractorTypeOfExt (Res1D.determineExt fp ext) = some t)
    (hex : Res1D.extract e st fp q n ext = Except.ok st') :
    st'.effects = st.effects ++ [Effect.exported t fp
      (e.convertQueriesToDataEntries (Res1D.get_actual_queries st q)) n] := by
  unfold Res1D.extract at hex
  rw [hE] at hex
  simp only [] at hex
  cases hR : e.runExport t fp
      (e.convertQueriesToDataEntries (Res1D.get_actual_queries st q)) n with
  | error ex => rw [hR] at hex; simp at hex
  | ok u =>
    rw [hR] at hex
    by_cases hc : st.clear_queries_after_reading = true
    · rw [hc] at hex
      simp only [if_true] at hex
      cases hex
      rfl
    · rw [Bool.not_eq_true] at hc
      rw [hc] at hex
      simp only [Bool.false_eq_true, if_false] at hex
      cases hex
      rfl

/-- Claim C1: for every reach name, chainage, quantity and time, if the
loaded file is a long-term-statistics file then `get_reach_value` raises
`NotImplementedError` immediately: the result is that error and the
external-call trace is empty, so the time argument was never converted and
the query engine was never invoked, regardless of quantity or location. -/
theorem c1_lts_rejection (e : Engine) (st : Res1DState) (reach_name : String)
    (chainage : Int) (quantity : String) (time : TimeArg)
    (h : st.result_reader.is_lts_result_file = true) :
    Res1D.get_reach_value e st reach_name chainage quantity time =
      (Except.error (PyException.notImplementedError
        "The method is not implemented for LTS event statistics."), []) := by
  unfold Res1D.get_reach_value
  rw [h]
  simp

/-- Witness for C1 at a concrete LTS state and a Python datetime argument. -/
theorem c1_lts_rejection_witness :
    stLts.result_reader.is_lts_result_file = true ∧
    Res1D.get_reach_value engineA stLts "reach1" 50 "Discharge" (TimeArg.python 3) =
      (Except.error (PyException.notImplementedError
        "The method is not implemented for LTS event statistics."), []) :=
  ⟨rfl, c1_lts_rejection engineA stLts "reach1" 50 "Discharge" (TimeArg.python 3) rfl⟩

/-- Helper: the facade's own `read` code mutates nothing, so a successful
`Res1D.read` returns the input state as its state component. -/
theorem read_ok_state (e : Engine) (st : Res1DState) (q : Option QueryArg)
    (df : DataFrame) (st2 : Res1DState)
    (h : Res1D.read e st q = Except.ok (df, st2)) : st2 = st := by
  unfold Res1D.read at h
  by_cases hg : (q.isNone && st.result_network.queries.isEmpty) = true
  · rw [if_pos hg] at h
    unfold Res1D.read_all at h
    cases hra : e.readAllData (loadedItems e st) with
    | error ex => rw [hra] at h; simp [Except.map] at h
    | ok d =>
      rw [hra] at h
      simp [Except.map] at h
      rw [h.2]
  · rw [if_neg hg] at h
    cases hrd : e.readData (loadedItems e st) (Res1D.get_actual_queries st q) with
    | error ex => rw [hrd] at h; simp [Except.map] at h
    | ok d =>
      rw [hrd] at h
      simp [Except.map] at h
      rw [h.2]

/-- Claim C2: for every instance with `clear_queries_after_reading = true`,
after a completed call to the read operation (the facade's `read` together
with the absent reader's spec-modelled clearing) both active query lists
(`result_network.queries` and `queries_ids`) are empty, so a subsequent call
starts with no active queries. -/
theorem c2_read_clears_queries (e : Engine) (st : Res1DState)
    (queries : Option QueryArg) (df : DataFrame) (st' : Res1DState)
    (h : st.clear_queries_after_reading = true)
    (hr : Res1D.readOp e st queries = Except.ok (df, st')) :
    st'.result_network.queries = [] ∧ st'.result_network.queries_ids = [] := by
  unfold Res1D.readOp at hr
  cases hread : Res1D.read e st queries with
  | error ex => rw [hread] at hr; simp at hr
  | ok p =>
    obtain ⟨df0, st0⟩ := p
    have hst : st0 = st := read_ok_state e st queries df0 st0 hread
    rw [hread] at hr
    simp only [] at hr
    rw [hst, h] at hr
    simp only [if_true] at hr
    cases hr
    exact ⟨rfl, rfl⟩

/-- Witness for C2 at a concrete state with one active query: the read
operation succeeds and the returned state has both query lists empty. -/
theorem c2_read_clears_queries_witness :
    stA.clear_queries_after_reading = true ∧
    Res1D.readOp engineA stA none = Except.ok ({ raw := 1 }, stEmpty) ∧
    (stEmpty.result_network.queries = [] ∧ stEmpty.result_network.queries_ids = []) :=
  ⟨rfl, rfl,
   c2_read_clears_queries engineA stA none { raw := 1 } stEmpty rfl rfl⟩

/-- Claim C3: for every file path and non-None ext argument, `extract` takes
the extension from the explicit ext value, ignoring the path's own extension;
in particular a successful `to_csv`, `to_dfs0` or `to_txt` exports with the
csv, dfs0 or txt serializer respectively, whatever the destination path's
extension is. -/
theorem c3_explicit_ext_overrides (fp x : String) (e : Engine) (st : Res1DState)
    (q : Option QueryArg) (n : Nat) (st' : Res1DState) :
    Res1D.determineExt fp (some x) = x ∧
    (Res1D.to_csv e st fp q n = Except.ok st' →
      st'.effects = st.effects ++ [Effect.exported OutputFileType.csv fp
        (e.convertQueriesToDataEntries (Res1D.get_actual_queries st q)) n]) ∧
    (Res1D.to_dfs0 e st fp q n = Except.ok st' →
      st'.effects = st.effects ++ [Effect.exported OutputFileType.dfs0 fp
        (e.convertQueriesToDataEntries (Res1D.get_actual_queries st q)) n]) ∧
    (Res1D.to_txt e st fp q n = Except.ok st' →
      st'.effects = st.effects ++ [Effect.exported OutputFileType.txt fp
        (e.convertQueriesToDataEntries (Res1D.get_actual_queries st q)) n]) := by
  refine ⟨rfl, ?_, ?_, ?_⟩
  · intro hex
    exact extract_ok_effects e st fp q n (some ExtractorOutputFileType.CSV)
      OutputFileType.csv st' rfl hex
  · intro hex
    exact extract_ok_effects e st fp q n (some ExtractorOutputFileType.DFS0)
      OutputFileType.dfs0 st' rfl hex
  · intro hex
    exact extract_ok_effects e st fp q n (some ExtractorOutputFileType.TXT)
      OutputFileType.txt st' rfl hex

/-- The state produced by `to_csv engineA stA "out.weird" none 1`. -/
def stWcsv : Res1DState :=
  { stCsv with effects := [Effect.exported OutputFileType.csv "out.weird" [{ raw := 5 }] 1] }

/-- The state produced by `to_dfs0 engineA stA "out.weird" none 1`. -/
def stWdfs : Res1DState :=
  { stCsv with effects := [Effect.exported OutputFileType.dfs0 "out.weird" [{ raw := 5 }] 1] }

/-- The state produced by `to_txt engineA stA "out.weird" none 1`. -/
def stWtxt : Res1DState :=
  { stCsv with effects := [Effect.exported OutputFileType.txt "out.weird" [{ raw := 5 }] 1] }

/-- Witness for C3: on a destination path whose extension matches no format,
the three explicit-format exports succeed with their own serializers. -/
theorem c3_explicit_ext_overrides_witness :
    (Res1D.to_csv engineA stA "out.weird" none 1 = Except.ok stWcsv ∧
      stWcsv.effects = stA.effects ++ [Effect.exported OutputFileType.csv "out.weird"
        (engineA.convertQueriesToDataEntries (Res1D.get_actual_queries stA none)) 1]) ∧
    (Res1D.to_dfs0 engineA stA "out.weird" none 1 = Except.ok stWdfs ∧
      stWdfs.effects = stA.effects ++ [Effect.exported OutputFileType.dfs0 "out.weird"
        (engineA.convertQueriesToDataEntries (Res1D.get_actual_queries stA none)) 1]) ∧
    (Res1D.to_txt engineA stA "out.weird" none 1 = Except.ok stWtxt ∧
      stWtxt.effects = stA.effects ++ [Effect.exported OutputFileType.txt "out.weird"
        (engineA.convertQueriesToDataEntries (Res1D.get_actual_queries stA none)) 1]) :=
  ⟨⟨rfl, ((c3_explicit_ext_overrides "out.weird" ExtractorOutputFileType.CSV engineA stA
      none 1 stWcsv).2.1 rfl)⟩,
   ⟨rfl, ((c3_explicit_ext_overrides "out.weird" ExtractorOutputFileType.DFS0 engineA stA
      none 1 stWdfs).2.2.1 rfl)⟩,
   ⟨rfl, ((c3_explicit_ext_overrides "out.weird" ExtractorOutputFileType.TXT engineA stA
      none 1 stWtxt).2.2.2 rfl)⟩⟩

/-- Claim C4: for every non-None queries argument, `read` returns exactly the
external reader's result on the argument normalized to a list (the list
itself, or the one-element list around a single query), the facade state
untouched and the table untransformed. -/
theorem c4_read_is_pass_through (e : Engine) (st : Res1DState) (q : Query)
    (qs : List Query) :
    Res1D.get_actual_queries st (some (QueryArg.list qs)) = qs ∧
    Res1D.get_actual_queries st (some (QueryArg.single q)) = [q] ∧
    ∀ qa : QueryArg, Res1D.read e st (some qa) =
      (e.readData (loadedItems e st) (Res1D.get_actual_queries st (some qa))).map
        (fun df => (df, st)) :=
  ⟨rfl, rfl, fun _ => rfl⟩

/-- Claim C5: constructing with empty filter lists yields the same reader
state as constructing with all filters omitted, and reading (or reading all)
then returns the same result. -/
theorem c5_empty_filters_equal_none (e : Engine) (d : ResultData) (c l : Bool)
    (q : Option QueryArg) :
    Res1D.init d (some []) (some []) (some []) c l = Res1D.init d none none none c l ∧
    Res1D.read e (Res1D.init d (some []) (some []) (some []) c l) q =
      Res1D.read e (Res1D.init d none none none c l) q ∧
    Res1D.read_all e (Res1D.init d (some []) (some []) (some []) c l) =
      Res1D.read_all e (Res1D.init d none none none c l) :=
  ⟨rfl, rfl, rfl⟩

/-- Claim C6: when the ext argument is None, `extract` selects the output
file type solely from `os.path.splitext(file_path)[-1]` and then invokes the
selected extractor's export routine (recorded as the appended export
effect). -/
theorem c6_ext_from_splitext (e : Engine) (st : Res1DState) (fp : String)
    (q : Option QueryArg) (n : Nat) (st' : Res1DState)
    (hex : Res1D.extract e st fp q n none = Except.ok st') :
    Res1D.determineExt fp none = (splitext fp).snd ∧
    ∃ t, extractorTypeOfExt (splitext fp).snd = some t ∧
      st'.effects = st.effects ++ [Effect.exported t fp
        (e.convertQueriesToDataEntries (Res1D.get_actual_queries st q)) n] := by
  refine ⟨rfl, ?_⟩
  cases hE : extractorTypeOfExt (Res1D.determineExt fp none) with
  | none =>
    unfold Res1D.extract at hex
    rw [hE] at hex
    simp at hex
  | some t =>
    exact ⟨t, hE, extract_ok_effects e st fp q n none t st' hE hex⟩

/-- Witness for C6 at a concrete extract call on "out.csv". -/
theorem c6_ext_from_splitext_witness :
    Res1D.extract engineA stA "out.csv" none 1 none = Except.ok stCsv ∧
    (Res1D.determineExt "out.csv" none = (splitext "out.csv").snd ∧
      ∃ t, extractorTypeOfExt (splitext "out.csv").snd = some t ∧
        stCsv.effects = stA.effects ++ [Effect.exported t "out.csv"
          (engineA.convertQueriesToDataEntries (Res1D.get_actual_queries stA none)) 1]) :=
  ⟨rfl, c6_ext_from_splitext engineA stA "out.csv" none 1 stCsv rfl⟩

/-- Claim C7: an exception of the external engine raised during `read`,
`read_all`, `save` or (after a serializer was selected) `extract` is returned
unchanged by the facade: no translation, retry or recovery. -/
theorem c7_exceptions_propagate (e : Engine) (st : Res1DState) (qa : QueryArg)
    (p fp : String) (q : Option QueryArg) (n : Nat) (x : Option String)
    (ex : PyException) :
    (e.readData (loadedItems e st) (Res1D.get_actual_queries st (some qa)) =
        Except.error ex →
      Res1D.read e st (some qa) = Except.error ex) ∧
    (e.readAllData (loadedItems e st) = Except.error ex →
      Res1D.read_all e st = Except.error ex) ∧
    (e.saveData { st.data with connectionFilePath := p } = Except.error ex →
      Res1D.save e st p = Except.error ex) ∧
    (∀ t, extractorTypeOfExt (Res1D.determineExt fp x) = some t →
      e.runExport t fp (e.convertQueriesToDataEntries (Res1D.get_actual_queries st q)) n =
        Except.error ex →
      Res1D.extract e st fp q n x = Except.error ex) := by
  refine ⟨?_, ?_, ?_, ?_⟩
  · intro h
    show (e.readData (loadedItems e st) (Res1D.get_actual_queries st (some qa))).map
      (fun df => (df, st)) = Except.error ex
    rw [h]
    rfl
  · intro h
    unfold Res1D.read_all
    rw [h]
    rfl
  · intro h
    unfold Res1D.save
    rw [h]
  · intro t hE hR
    unfold Res1D.extract
    rw [hE]
    simp only []
    rw [hR]

/-- Witness for C7: a concrete engine whose operations all fail returns the
very same exception through each facade operation. -/
theorem c7_exceptions_propagate_witness :
    engineErr.readData (loadedItems engineErr stA)
        (Res1D.get_actual_queries stA (some (QueryArg.list [qA]))) = Except.error exB ∧
    Res1D.read engineErr stA (some (QueryArg.list [qA])) = Except.error exB ∧
    Res1D.read_all engineErr stA = Except.error exB ∧
    Res1D.save engineErr stA "new.res1d" = Except.error exB ∧
    Res1D.extract engineErr stA "out.csv" none 1 none = Except.error exB :=
  ⟨rfl,
   (c7_exceptions_propagate engineErr stA (QueryArg.list [qA]) "new.res1d" "out.csv"
      none 1 none exB).1 rfl,
   (c7_exceptions_propagate engineErr stA (QueryArg.list [qA]) "new.res1d" "out.csv"
      none 1 none exB).2.1 rfl,
   (c7_exceptions_propagate engineErr stA (QueryArg.list [qA]) "new.res1d" "out.csv"
      none 1 none exB).2.2.1 rfl,
   (c7_exceptions_propagate engineErr stA (QueryArg.list [qA]) "new.res1d" "out.csv"
      none 1 none exB).2.2.2 OutputFileType.csv rfl rfl⟩

/-- Claim C8: `read` with queries=None returns exactly `read_all()` when the
active query list is empty, and otherwise forwards the active queries to the
external reader instead of reading all data. -/
theorem c8_read_none_dispatch (e : Engine) (st : Res1DState) :
    (st.result_network.queries = [] → Res1D.read e st none = Res1D.read_all e st) ∧
    (st.result_network.queries ≠ [] → Res1D.read e st none =
      (e.readData (loadedItems e st) st.result_network.queries).map
        (fun df => (df, st))) := by
  constructor
  · intro h
    unfold Res1D.read
    rw [h]
    rfl
  · intro h
    have hg : ((none : Option QueryArg).isNone && st.result_network.queries.isEmpty) = false := by
      cases hq : st.result_network.queries with
      | nil => exact absurd hq h
      | cons a as => rfl
    unfold Res1D.read
    rw [hg]
    rfl

/-- Witness for C8 at a concrete empty and a concrete non-empty query
list. -/
theorem c8_read_none_dispatch_witness :
    stEmpty.result_network.queries = [] ∧
    Res1D.read engineA stEmpty none = Res1D.read_all engineA stEmpty ∧
    stA.result_network.queries ≠ [] ∧
    Res1D.read engineA stA none =
      (engineA.readData (loadedItems engineA stA) stA.result_network.queries).map
        (fun df => (df, stA)) :=
  ⟨rfl, (c8_read_none_dispatch engineA stEmpty).1 rfl, by decide,
   (c8_read_none_dispatch engineA stA).2 (by decide)⟩

/-- Claim C9: `modify(df, p)` with p not None equals `modify(df)` followed by
`save(p)`; and `modify(df)` with the file path omitted only updates the
in-memory data object and performs no save (the effect trace is unchanged). -/
theorem c9_modify_then_save (e : Engine) (st : Res1DState) (df : DataFrame)
    (p : String) :
    Res1D.modify e st df (some p) =
      Except.bind (Res1D.modify e st df none) (fun s1 => Res1D.save e s1 p) ∧
    Res1D.modify e st df none = Except.ok { st with data := e.writeFrame df st.data } ∧
    ({ st with data := e.writeFrame df st.data } : Res1DState).effects = st.effects :=
  ⟨rfl, rfl, rfl⟩

/-- Claim C10: `clear_queries` empties both `result_network.queries` and
`result_network.queries_ids`, so the two parallel lists are cleared
together. -/
theorem c10_clear_queries_clears_both (st : Res1DState) :
    (Res1D.clear_queries st).result_network.queries = [] ∧
    (Res1D.clear_queries st).result_network.queries_ids = [] :=
  ⟨rfl, rfl⟩

end Mikeio1d
